import Mathlib

/-
Shallow embedding of `asynqp/channel.py` (the per-channel AMQP frame-handling
layer of the asynqp client), used to verify the natural-language specification
of the module against its code.

Modelling conventions:
* Python strings are modelled as `List Char` (`Str`).
* Dynamically typed values that flow into `MessageBuilder` (Python passes both
  strings and integers/booleans for `delivery_tag`/`redelivered`) are `PyVal`.
* Each coroutine/handler is embedded as a pure function from its inputs (and
  the relevant mutable state, passed explicitly) to the new state plus a trace
  of its observable effects (`Act`): frames sent via the `ChannelMethodSender`,
  `Synchroniser.notify` calls, `Synchroniser.await` suspension points,
  `handler.ready()` readiness signals, dispatcher (de)registrations, the
  catcher's `loop.call_soon` scheduling, and raised errors.
* `spec.py`, `message.py`, `util.py` and `exchange.py` are not part of the
  source under verification; the parts of them this module depends on
  (method-frame payload fields, the `MessageBuilder`, the returned-message
  exception) are modelled from the specification, as marked on each definition.
-/

set_option autoImplicit false

namespace Asynqp

/-- Python strings are modelled as lists of characters. -/
abbrev Str := List Char

/-- Conversion from a Lean string literal to the `Str` model of Python strings. -/
def pyStr (s : String) : Str := s.data

/-- Dynamically-typed Python value, as stored in `MessageBuilder` metadata
fields (`receive_return` passes `''` where `receive_getOK` passes an integer
delivery tag and a boolean redelivered flag). -/
inductive PyVal where
  | str (s : Str)
  | int (n : Nat)
  | bool (b : Bool)
  | pynone
  deriving DecidableEq

/-- Modelled from the spec: payload of a content-header frame; the only field
the core reads is the declared body length (spec section 4.4: `set_header`
"records declared body length"). `spec.py` is not under `src/`. -/
structure ContentHeaderPayload where
  body_length : Nat
  deriving DecidableEq

/-- Modelled from the spec: the fields of a `BasicGetOK` method payload that
`MessageReceiver.receive_getOK` reads (`spec.py` is not under `src/`). -/
structure BasicGetOKPayload where
  delivery_tag : Nat
  redelivered : Bool
  exchange : Str
  routing_key : Str
  deriving DecidableEq

/-- Modelled from the spec: the fields of a `BasicDeliver` method payload that
`MessageReceiver.receive_deliver` reads (`spec.py` is not under `src/`). -/
structure BasicDeliverPayload where
  delivery_tag : Nat
  redelivered : Bool
  exchange : Str
  routing_key : Str
  consumer_tag : Str
  deriving DecidableEq

/-- Modelled from the spec: the fields of a `BasicReturn` method payload that
`MessageReceiver.receive_return` reads (`spec.py` is not under `src/`). -/
structure BasicReturnPayload where
  exchange : Str
  routing_key : Str
  deriving DecidableEq

/-- Modelled from the spec: the built `Message` artifact (spec section 3:
"header metadata + concatenated body bytes + delivery metadata. Immutable once
built"); `message.py` is not under `src/`. -/
structure Message where
  delivery_tag : PyVal
  redelivered : PyVal
  exchange : Str
  routing_key : Str
  header : ContentHeaderPayload
  body : Str
  deriving DecidableEq

/-- Modelled from the spec: the ways a `MessageBuilder` operation can fail
(spec section 4.4: `set_header` "may be called exactly once";
`add_body_chunk` "fails if called after completion or before a header is set";
section 8: "feeding chunks summing to more than L must fault"). -/
inductive BuilderFault where
  | headerAlreadySet
  | noHeader
  | afterCompletion
  | bodyOverflow
  deriving DecidableEq

/-- Modelled from the spec: `message.MessageBuilder` state (spec section 3:
"sender-identity metadata extracted from the trigger frame (delivery tag,
redelivered flag, exchange, routing key, optional consumer tag), a header
payload (set once), and an ordered sequence of body-chunk byte ranges");
`message.py` is not under `src/`. -/
structure MessageBuilder where
  delivery_tag : PyVal
  redelivered : PyVal
  exchange : Str
  routing_key : Str
  consumer_tag : Option Str
  header : Option ContentHeaderPayload
  body : Str
  deriving DecidableEq

/-- Modelled from the spec: the `MessageBuilder` constructor, mirroring the
Python call `MessageBuilder(sender, delivery_tag, redelivered, exchange,
routing_key, consumer_tag=None)`; an omitted consumer tag is `none`. -/
def MessageBuilder.mkNew (delivery_tag redelivered : PyVal) (exchange routing_key : Str)
    (consumer_tag : Option Str) : MessageBuilder :=
  ⟨delivery_tag, redelivered, exchange, routing_key, consumer_tag, none, []⟩

/-- Modelled from the spec: `done()` is "true once accumulated length ==
declared length" and is false before the header is set. -/
def MessageBuilder.done (b : MessageBuilder) : Bool :=
  match b.header with
  | none => false
  | some p => b.body.length == p.body_length

/-- Modelled from the spec: `set_header(payload)` "may be called exactly once;
records declared body length". -/
def MessageBuilder.set_header (b : MessageBuilder) (p : ContentHeaderPayload) :
    Except BuilderFault MessageBuilder :=
  match b.header with
  | some _ => .error .headerAlreadySet
  | none => .ok { b with header := some p }

/-- Modelled from the spec: `add_body_chunk(bytes)` "appends; fails if called
after completion or before a header is set", and chunks summing past the
declared length fault (spec section 8). -/
def MessageBuilder.add_body_chunk (b : MessageBuilder) (chunk : Str) :
    Except BuilderFault MessageBuilder :=
  match b.header with
  | none => .error .noHeader
  | some p =>
    if b.done then .error .afterCompletion
    else if p.body_length < b.body.length + chunk.length then .error .bodyOverflow
    else .ok { b with body := b.body ++ chunk }

/-- Modelled from the spec: `build()` "assembles the final Message; may be
called only when `done()`" — the code below only invokes it under that
precondition, so the header default is never observed. -/
def MessageBuilder.build (b : MessageBuilder) : Message :=
  ⟨b.delivery_tag, b.redelivered, b.exchange, b.routing_key, b.header.getD ⟨0⟩, b.body⟩

/-- Rendezvous keys of the per-channel `Synchroniser`: the method classes and
frame classes that `channel.py` passes to `synchroniser.notify` /
`synchroniser.await`. -/
inductive EventKey where
  | channelOpenOK
  | exchangeDeclareOK
  | channelCloseOK
  | basicQosOK
  | basicGetOK
  | basicGetEmpty
  | contentHeaderFrame
  | contentBodyFrame
  deriving DecidableEq

/-- Value carried by a `Synchroniser.notify` call in `channel.py`. -/
inductive NotifyVal where
  | unit
  | bool (b : Bool)
  | tagMsg (tag : Option Str) (msg : Message)
  deriving DecidableEq

/-- Outbound method frames built by `ChannelMethodSender`, with the argument
values exactly as the sender methods construct them. -/
inductive Method where
  | exchangeDeclare (ticket : Nat) (name ty : Str)
      (passive durable auto_delete internal nowait : Bool)
  | channelOpen (out_of_band : Str)
  | channelClose (status_code : Nat) (reason : Str) (class_id method_id : Nat)
  | channelCloseOK
  deriving DecidableEq

/-- Observable effect of a handler/coroutine step in `channel.py`. -/
inductive Act where
  | sendMethod (m : Method)
  | notify (k : EventKey) (v : NotifyVal)
  | awaitKey (k : EventKey)
  | ready
  | addHandler (channel_id : Nat)
  | removeHandler (channel_id : Nat)
  | callSoon (callback : Nat) (msg : Message)
  | raiseUndeliverable (msg : Message)
  | assertionError
  deriving DecidableEq

/-- Record of the arguments with which `channel.py` constructs an
`exchange.Exchange` (the class itself is an out-of-scope collaborator). -/
structure Exchange where
  name : Str
  ty : Str
  durable : Bool
  auto_delete : Bool
  internal : Bool
  deriving DecidableEq

/-- Character class `\w` of the Python regex under `re.A` (ASCII-only):
letters, digits and underscore. -/
def reWordChar (c : Char) : Bool :=
  c.isAlpha || c.isDigit || c = '_'

/-- Character class `(\w|[-.:])` of `VALID_EXCHANGE_NAME_RE`. -/
def exchNameChar (c : Char) : Bool :=
  reWordChar c || c = '-' || c = '.' || c = ':'

/-- Negative lookahead `(?!amq\.)` of the validation regexes: true when the
string starts with the four characters `amq.`. -/
def startsWithAmqDot : Str → Bool
  | 'a' :: 'm' :: 'q' :: '.' :: _ => true
  | _ => false

/-- Match of `(\w|[-.:])+$` against the whole remaining string, with Python
semantics of `$` (without `re.M`, `$` matches at the end of the string or just
before a newline at the end of the string): either the whole string is one or
more name characters, or everything except a single final `'\n'` is. -/
def plusThenDollar (cs : Str) : Bool :=
  (!cs.isEmpty && cs.all exchNameChar) ||
  (match cs.getLast? with
   | some c => c == '\n' && !cs.dropLast.isEmpty && cs.dropLast.all exchNameChar
   | none => false)

/-- Truthiness of `VALID_EXCHANGE_NAME_RE.match(name)` for
`VALID_EXCHANGE_NAME_RE = re.compile(r'^(?!amq\.)(\w|[-.:])+$', flags=re.A)`
(channel.py line 14), under Python `re` semantics. -/
def matchesValidExchangeName (name : Str) : Bool :=
  !startsWithAmqDot name && plusThenDollar name

/-- Result of `Channel.declare_exchange`: either the `ValueError` raise or the
returned `Exchange` object. -/
inductive DeclareResult where
  | raisedInvalidName
  | returnedExchange (ex : Exchange)
  deriving DecidableEq

/-- Embedding of `Channel.declare_exchange` (channel.py lines 54-66): the empty
name short-circuits to the default exchange with no frame traffic; a name
rejected by `VALID_EXCHANGE_NAME_RE` raises `ValueError` before anything is
sent; otherwise one `ExchangeDeclare` method frame is sent (via
`send_ExchangeDeclare`, which fills ticket 0, passive False, no-wait False),
the `ExchangeDeclareOK` response is awaited, and readiness is signalled after
the response arrives. The first trace component lists the effects in order. -/
def Channel.declare_exchange (name ty : Str) (durable auto_delete internal : Bool) :
    List Act × DeclareResult :=
  if name = [] then
    ([], .returnedExchange ⟨name, pyStr "direct", true, false, false⟩)
  else if !matchesValidExchangeName name then
    ([], .raisedInvalidName)
  else
    ([.sendMethod (.exchangeDeclare 0 name ty false durable auto_delete internal false),
      .awaitKey .exchangeDeclareOK, .ready],
     .returnedExchange ⟨name, ty, durable, auto_delete, internal⟩)

/-- Mutable state of a `MessageReceiver`: the single message-builder slot
(`self.message_builder`, channel.py line 256). The synchroniser, sender,
consumers and catcher references are wiring, not state, and appear as trace
actions instead. -/
structure ReceiverState where
  message_builder : Option MessageBuilder
  deriving DecidableEq

/-- State of a freshly constructed `MessageReceiver` (channel.py line 256:
`self.message_builder = None`). -/
def MessageReceiver.initState : ReceiverState := ⟨none⟩

/-- How a receiver step can fault: dereferencing the empty (`None`) builder
slot raises `AttributeError` in Python; builder misuse surfaces the
builder-level fault. -/
inductive FaultKind where
  | noneAttributeError
  | builder (f : BuilderFault)
  deriving DecidableEq

/-- Result of one receiver step: the effects emitted before a fault, or the
new receiver state together with the emitted effects. -/
inductive StepResult where
  | fault (f : FaultKind) (trace : List Act)
  | ok (st : ReceiverState) (trace : List Act)
  deriving DecidableEq

/-- Embedding of `ChannelFrameHandler.handle_BasicGetEmpty` (channel.py lines
214-215): a single `synchroniser.notify(spec.BasicGetEmpty, False)`; the
receiver state is untouched (the handler does not reach the receiver at all),
and no builder is created and no content frame is awaited. -/
def ChannelFrameHandler.handle_BasicGetEmpty (st : ReceiverState) :
    ReceiverState × List Act :=
  (st, [.notify .basicGetEmpty (.bool false)])

/-- Embedding of `MessageReceiver.receive_getOK` (channel.py lines 258-269),
the coroutine spawned by `handle_BasicGetOK`: notify the pending get wait with
`True`, overwrite the builder slot with a fresh builder carrying the trigger
payload's metadata (and no consumer tag), then signal readiness. -/
def MessageReceiver.receive_getOK (_st : ReceiverState) (p : BasicGetOKPayload) :
    ReceiverState × List Act :=
  (⟨some (MessageBuilder.mkNew (.int p.delivery_tag) (.bool p.redelivered)
      p.exchange p.routing_key none)⟩,
   [.notify .basicGetOK (.bool true), .ready])

/-- Embedding of the first phase of `MessageReceiver.receive_deliver`
(channel.py lines 271-283), up to its suspension points: install a fresh
builder carrying the deliver payload's metadata including the consumer tag,
signal readiness, then await the content-header and content-body rendezvous. -/
def MessageReceiver.receive_deliver_start (_st : ReceiverState) (p : BasicDeliverPayload) :
    ReceiverState × List Act :=
  (⟨some (MessageBuilder.mkNew (.int p.delivery_tag) (.bool p.redelivered)
      p.exchange p.routing_key (some p.consumer_tag))⟩,
   [.ready, .awaitKey .contentHeaderFrame, .awaitKey .contentBodyFrame])

/-- Embedding of the first phase of `MessageReceiver.receive_return`
(channel.py lines 288-300), up to its suspension points: install a fresh
builder with `''` for delivery tag and redelivered flag and with no consumer
tag (the constructor call omits that argument), signal readiness, then await
the content-header and content-body rendezvous. -/
def MessageReceiver.receive_return_start (_st : ReceiverState) (p : BasicReturnPayload) :
    ReceiverState × List Act :=
  (⟨some (MessageBuilder.mkNew (.str []) (.str []) p.exchange p.routing_key none)⟩,
   [.ready, .awaitKey .contentHeaderFrame, .awaitKey .contentBodyFrame])

/-- Embedding of `ReturnedMessageCatcher.handle_returned_message` (channel.py
lines 405-408): with no callback set, raise `UndeliverableMessage(msg)`;
otherwise `self.loop.call_soon(self.callback, msg)` — one deferred invocation
of the callback with the message, scheduled to run later on the event loop,
not inline. The catcher's single callback slot is `Option Nat` (a callback
identity; only its presence matters). -/
def ReturnedMessageCatcher.handle_returned_message (callback : Option Nat)
    (msg : Message) : Act :=
  match callback with
  | none => .raiseUndeliverable msg
  | some f => .callSoon f msg

/-- Embedding of the rest of `MessageReceiver.receive_return` (channel.py lines
301-304), resumed with the value `(tag, msg)` delivered at the content-body
rendezvous: `assert tag is None`, then `self.handler.ready()` ("schedule
reading of the next frame before throwing the exception"), then
`self.catcher.handle_returned_message(msg)`. -/
def MessageReceiver.receive_return_finish (callback : Option Nat) (tag : Option Str)
    (msg : Message) : List Act :=
  match tag with
  | some _ => [.assertionError]
  | none => [.ready, ReturnedMessageCatcher.handle_returned_message callback msg]

/-- Embedding of `MessageReceiver.receive_header` (channel.py lines 306-310):
notify the content-header rendezvous, then `self.message_builder.set_header(...)`
(an `AttributeError` on `None` when no builder is installed — the notify has
already happened by then), then signal readiness. -/
def MessageReceiver.receive_header (st : ReceiverState) (p : ContentHeaderPayload) :
    StepResult :=
  match st.message_builder with
  | none => .fault .noneAttributeError [.notify .contentHeaderFrame .unit]
  | some b =>
    match b.set_header p with
    | .error f => .fault (.builder f) [.notify .contentHeaderFrame .unit]
    | .ok b2 => .ok ⟨some b2⟩ [.notify .contentHeaderFrame .unit, .ready]

/-- Embedding of `MessageReceiver.receive_body` (channel.py lines 312-324):
`self.message_builder.add_body_chunk(...)` (an `AttributeError` on `None` when
no builder is installed); if the builder is then done, build the message, read
the consumer tag off the builder, notify the content-body rendezvous with
`(tag, msg)`, clear the builder slot and return WITHOUT signalling readiness
(the comment in the source: get()/receive_deliver() will do that); otherwise
signal readiness for the next body frame. -/
def MessageReceiver.receive_body (st : ReceiverState) (chunk : Str) : StepResult :=
  match st.message_builder with
  | none => .fault .noneAttributeError []
  | some b =>
    match b.add_body_chunk chunk with
    | .error f => .fault (.builder f) []
    | .ok b2 =>
      if b2.done then
        .ok ⟨none⟩ [.notify .contentBodyFrame (.tagMsg b2.consumer_tag b2.build)]
      else
        .ok ⟨some b2⟩ [.ready]

/-- Embedding of `ChannelFrameHandler.handle_ChannelClose` (channel.py lines
237-238): the whole handler body is `self.sender.send_CloseOK()`; in
particular it neither signals readiness nor resolves any rendezvous, so no
further frame is requested from the dispatcher. -/
def ChannelFrameHandler.handle_ChannelClose : List Act :=
  [.sendMethod .channelCloseOK]

/-- Embedding of `ChannelFrameHandler.handle_ChannelCloseOK` (channel.py lines
240-241): notify the close rendezvous; no readiness signal. -/
def ChannelFrameHandler.handle_ChannelCloseOK : List Act :=
  [.notify .channelCloseOK .unit]

/-- Embedding of `Channel.close` (channel.py lines 91-100): send the
`ChannelClose` request (status 0, reason "Channel closed by application"),
await `ChannelCloseOK`, and — per the source comment "don't say
self.handler.ready - stop reading frames from the q" — do not signal
readiness afterwards. -/
def Channel.close_trace : List Act :=
  [.sendMethod (.channelClose 0 (pyStr "Channel closed by application") 0 0),
   .awaitKey .channelCloseOK]

/-- The value a completed receiver step resolved the content-body rendezvous
with, if any. -/
def actTagMsg : Act → Option (Option Str × Message)
  | .notify .contentBodyFrame (.tagMsg t m) => some (t, m)
  | _ => none

/-- Driver for a reconstruction's body phase: feed the chunks of successive
content-body frames through `receive_body` and return the `(tag, msg)` value
the content-body rendezvous is resolved with when the builder completes, or
`none` when the run faults or runs out of chunks first. -/
def runChunks : ReceiverState → List Str → Option (Option Str × Message)
  | _, [] => none
  | st, c :: cs =>
    match MessageReceiver.receive_body st c with
    | .fault _ _ => none
    | .ok st2 tr =>
      match tr.findSome? actTagMsg with
      | some v => some v
      | none => runChunks st2 cs

/-- State of a `ChannelFactory`: its monotone channel-id counter. -/
structure FactoryState where
  next_channel_id : Nat
  deriving DecidableEq

/-- State of a freshly constructed `ChannelFactory` (channel.py line 153:
`self.next_channel_id = 1`). -/
def ChannelFactory.initState : FactoryState := ⟨1⟩

/-- Embedding of `ChannelFactory.open` (channel.py lines 155-181; `open` is a
Lean keyword, hence the name). The handler for the candidate id is registered
with the dispatcher, then — inside the try block — the `ChannelOpen` request
is sent, readiness is signalled and `ChannelOpenOK` is awaited. The
`handshake_ok` flag says whether that await succeeds; on failure the handler
registration is removed again, the error propagates (result `none`) and the
counter is NOT advanced; on success the counter advances, readiness is
signalled once more and the new channel (its id) is returned. -/
def ChannelFactory.openChannel (st : FactoryState) (handshake_ok : Bool) :
    FactoryState × List Act × Option Nat :=
  let cid := st.next_channel_id
  if handshake_ok then
    (⟨cid + 1⟩,
     [.addHandler cid, .sendMethod (.channelOpen []), .ready,
      .awaitKey .channelOpenOK, .ready],
     some cid)
  else
    (st,
     [.addHandler cid, .sendMethod (.channelOpen []), .ready,
      .awaitKey .channelOpenOK, .removeHandler cid],
     none)

/-- Driver for a sequence of `ChannelFactory.openChannel` attempts: returns
the channel id allocated by each attempt (`none` for a failed handshake). -/
def runOpens : FactoryState → List Bool → List (Option Nat)
  | _, [] => []
  | st, ok :: rest =>
    (ChannelFactory.openChannel st ok).2.2 :: runOpens (ChannelFactory.openChannel st ok).1 rest

/-- Whether a receiver step died on the empty builder slot (`AttributeError`
on `None`). -/
def hitsNoneFault : StepResult → Bool
  | .fault .noneAttributeError _ => true
  | _ => false

/-- Whether an action is a deferred callback invocation scheduled through
`loop.call_soon`. -/
def isCallSoonAct : Act → Bool
  | .callSoon _ _ => true
  | _ => false

lemma MessageBuilder.add_body_chunk_ok {b b2 : MessageBuilder} {c : Str}
    (h : b.add_body_chunk c = .ok b2) : b2 = { b with body := b.body ++ c } := by
  unfold MessageBuilder.add_body_chunk at h
  cases hh : b.header with
  | none => rw [hh] at h; exact Except.noConfusion h
  | some p =>
    simp only [hh] at h
    by_cases hd : b.done
    · simp [hd] at h
    · by_cases ho : p.body_length < b.body.length + c.length
      · simp [hd, ho] at h
      · simp [hd, ho] at h
        exact h.symm

lemma runChunks_meta : ∀ (cs : List Str) (st : ReceiverState) (b : MessageBuilder)
    (tag : Option Str) (msg : Message),
    st.message_builder = some b →
    runChunks st cs = some (tag, msg) →
    tag = b.consumer_tag ∧ msg.delivery_tag = b.delivery_tag ∧
      msg.redelivered = b.redelivered ∧ msg.exchange = b.exchange ∧
      msg.routing_key = b.routing_key ∧ msg.header = b.header.getD ⟨0⟩ := by
  intro cs
  induction cs with
  | nil =>
    intro st b tag msg _ hrun
    simp [runChunks] at hrun
  | cons c rest ih =>
    intro st b tag msg hst hrun
    simp only [runChunks, MessageReceiver.receive_body, hst] at hrun
    cases hadd : b.add_body_chunk c with
    | error f =>
      simp only [hadd] at hrun
      exact Option.noConfusion hrun
    | ok b2 =>
      simp only [hadd] at hrun
      have hb2 : b2 = { b with body := b.body ++ c } :=
        MessageBuilder.add_body_chunk_ok hadd
      by_cases hd : b2.done
      · simp [hd, List.findSome?, actTagMsg] at hrun
        obtain ⟨h1, h2⟩ := hrun
        subst hb2
        simp [← h1, ← h2, MessageBuilder.build]
      · simp [hd, List.findSome?, actTagMsg] at hrun
        have hres := ih ⟨some b2⟩ b2 tag msg rfl hrun
        subst hb2
        exact hres

lemma runOpens_ids : ∀ (bs : List Bool) (st : FactoryState),
    (runOpens st bs).filterMap (fun x => x) =
      List.range' st.next_channel_id (bs.count true) := by
  intro bs
  induction bs with
  | nil => intro st; simp [runOpens]
  | cons ok rest ih =>
    intro st
    cases ok with
    | true =>
      simp [runOpens, ChannelFactory.openChannel, List.count_cons, ih, List.range']
    | false =>
      simp [runOpens, ChannelFactory.openChannel, List.count_cons, ih]

/-- C1: the claim says every exchange name that begins with `amq.` or contains
a character outside letters, digits, underscore, hyphen, period or colon makes
`Channel.declare_exchange` raise a validation error before any frame is sent.
The code violates this on names with a trailing newline: Python's `$` (without
`re.M`) also matches just before a newline at the end of the string, so
`VALID_EXCHANGE_NAME_RE.match("a\n")` succeeds even though `'\n'` is outside
the permitted class (and outside the class named by the function's own error
message), and `declare_exchange` sends an `ExchangeDeclare` frame carrying the
name `"a\n"` instead of raising `ValueError`. -/
theorem C1_trailing_newline_name_is_sent :
    ((pyStr "a\n").all exchNameChar = false) ∧
    Channel.declare_exchange (pyStr "a\n") (pyStr "topic") true false false =
      ([.sendMethod (.exchangeDeclare 0 (pyStr "a\n") (pyStr "topic")
          false true false false false),
        .awaitKey .exchangeDeclareOK, .ready],
       .returnedExchange ⟨pyStr "a\n", pyStr "topic", true, false, false⟩) :=
  ⟨rfl, rfl⟩

/-- C2: counterexample. The claim says `Channel.declare_exchange` called with
the empty string is rejected as an invalid exchange name before any frame is
sent. In the code the empty name is not rejected: `declare_exchange('')` sends
no frame, raises nothing, and returns the default exchange object. -/
theorem C2_empty_name_not_rejected :
    Channel.declare_exchange [] (pyStr "topic") true false false =
      ([], .returnedExchange ⟨[], pyStr "direct", true, false, false⟩) ∧
    (Channel.declare_exchange [] (pyStr "topic") true false false).2 ≠
      DeclareResult.raisedInvalidName := by
  refine ⟨rfl, ?_⟩
  intro h
  exact DeclareResult.noConfusion h

/-- C2 (amended): `Channel.declare_exchange` called with the empty string does
not raise; for any type and flag arguments it sends no frame and immediately
returns the default exchange (name `''`, type `'direct'`, durable, not
auto-delete, not internal) with no handshake — the empty name is accepted for
exchanges and denotes the server's default exchange. -/
theorem C2_empty_name_returns_default_exchange :
    ∀ (ty : Str) (durable auto_delete internal : Bool),
    Channel.declare_exchange [] ty durable auto_delete internal =
      ([], .returnedExchange ⟨[], pyStr "direct", true, false, false⟩) := by
  intro ty durable auto_delete internal
  rfl

/-- C3: in the returned-message sequence, once the message is reassembled the
resumed `receive_return` emits exactly `[ready, catcher-action]` — readiness
is signalled strictly before the catcher is invoked; the catcher with a set
callback schedules exactly one deferred `loop.call_soon` invocation of it with
the returned message (never an inline call), and with no callback set it
raises `UndeliverableMessage` carrying the message rather than dropping it. -/
theorem C3_readiness_before_catcher :
    ∀ (cb : Option Nat) (msg : Message),
    (MessageReceiver.receive_return_finish cb none msg =
      [.ready, ReturnedMessageCatcher.handle_returned_message cb msg]) ∧
    (∀ f : Nat,
      ReturnedMessageCatcher.handle_returned_message (some f) msg = .callSoon f msg) ∧
    (ReturnedMessageCatcher.handle_returned_message none msg =
      .raiseUndeliverable msg) ∧
    ((MessageReceiver.receive_return_finish cb none msg).countP isCallSoonAct =
      if cb.isSome then 1 else 0) := by
  intro cb msg
  refine ⟨rfl, fun f => rfl, rfl, ?_⟩
  cases cb with
  | none =>
    simp [MessageReceiver.receive_return_finish,
      ReturnedMessageCatcher.handle_returned_message, List.countP_cons, isCallSoonAct]
  | some f =>
    simp [MessageReceiver.receive_return_finish,
      ReturnedMessageCatcher.handle_returned_message, List.countP_cons, isCallSoonAct]

/-- C4: for a polled get, `handle_BasicGetEmpty` resolves the pending get wait
with found=false in one trigger-only notify — the receiver state is untouched,
no message builder is created and no reconstruction sequence begins — while a
get-OK trigger resolves the get wait with found=true, installs a fresh builder
from the trigger payload, signals readiness, and the reconstruction it starts
resolves the content-body rendezvous with (no consumer tag, the message built
from exactly that trigger's metadata). -/
theorem C4_polled_get :
    ∀ (st : ReceiverState) (p : BasicGetOKPayload),
    (ChannelFrameHandler.handle_BasicGetEmpty st =
      (st, [.notify .basicGetEmpty (.bool false)])) ∧
    ((MessageReceiver.receive_getOK st p).2 =
      [.notify .basicGetOK (.bool true), .ready]) ∧
    ((MessageReceiver.receive_getOK st p).1.message_builder =
      some (MessageBuilder.mkNew (.int p.delivery_tag) (.bool p.redelivered)
        p.exchange p.routing_key none)) ∧
    (∀ (hp : ContentHeaderPayload) (st2 : ReceiverState) (tr2 : List Act)
        (cs : List Str) (tag : Option Str) (msg : Message),
      MessageReceiver.receive_header (MessageReceiver.receive_getOK st p).1 hp =
        .ok st2 tr2 →
      runChunks st2 cs = some (tag, msg) →
      tag = none ∧ msg.delivery_tag = .int p.delivery_tag ∧
        msg.redelivered = .bool p.redelivered ∧ msg.exchange = p.exchange ∧
        msg.routing_key = p.routing_key ∧ msg.header = hp) := by
  intro st p
  refine ⟨rfl, rfl, rfl, ?_⟩
  intro hp st2 tr2 cs tag msg hhdr hrun
  have hb : MessageReceiver.receive_header (MessageReceiver.receive_getOK st p).1 hp =
      .ok ⟨some ⟨.int p.delivery_tag, .bool p.redelivered, p.exchange, p.routing_key,
        none, some hp, []⟩⟩ [.notify .contentHeaderFrame .unit, .ready] := rfl
  rw [hb] at hhdr
  injection hhdr with h1 h2
  subst h1
  exact runChunks_meta cs _ _ tag msg rfl hrun

/-- C4 witness: a concrete getOK trigger (delivery tag 7) followed by a header
declaring one body byte and a single one-byte chunk; the get-side rendezvous
receives the message carrying exactly the trigger's metadata, with no tag. -/
theorem C4_polled_get_witness :
    (MessageReceiver.receive_header
        (MessageReceiver.receive_getOK ⟨none⟩ ⟨7, false, pyStr "e", pyStr "k"⟩).1 ⟨1⟩ =
      .ok ⟨some ⟨.int 7, .bool false, pyStr "e", pyStr "k", none, some ⟨1⟩, []⟩⟩
        [.notify .contentHeaderFrame .unit, .ready]) ∧
    (runChunks ⟨some ⟨.int 7, .bool false, pyStr "e", pyStr "k", none, some ⟨1⟩, []⟩⟩
        [pyStr "x"] =
      some (none, ⟨.int 7, .bool false, pyStr "e", pyStr "k", ⟨1⟩, pyStr "x"⟩)) ∧
    ((none : Option Str) = none ∧
      (⟨.int 7, .bool false, pyStr "e", pyStr "k", ⟨1⟩, pyStr "x"⟩ : Message).delivery_tag =
        .int 7 ∧
      (⟨.int 7, .bool false, pyStr "e", pyStr "k", ⟨1⟩, pyStr "x"⟩ : Message).redelivered =
        .bool false ∧
      (⟨.int 7, .bool false, pyStr "e", pyStr "k", ⟨1⟩, pyStr "x"⟩ : Message).exchange =
        pyStr "e" ∧
      (⟨.int 7, .bool false, pyStr "e", pyStr "k", ⟨1⟩, pyStr "x"⟩ : Message).routing_key =
        pyStr "k" ∧
      (⟨.int 7, .bool false, pyStr "e", pyStr "k", ⟨1⟩, pyStr "x"⟩ : Message).header = ⟨1⟩) :=
  ⟨rfl, rfl,
   C4_polled_get ⟨none⟩ ⟨7, false, pyStr "e", pyStr "k"⟩ |>.2.2.2 ⟨1⟩ _ _ [pyStr "x"] none
     ⟨.int 7, .bool false, pyStr "e", pyStr "k", ⟨1⟩, pyStr "x"⟩ rfl rfl⟩

/-- C5: for every body chunk accepted during a reconstruction: if the builder
is not done after the chunk, `receive_body` keeps the updated builder in the
slot and emits only a readiness signal (no rendezvous is resolved); if the
chunk completes the builder, it resolves the content-body rendezvous with
(consumer tag, built message), clears the builder slot to `none`, and emits no
readiness signal itself. -/
theorem C5_receive_body_chunk :
    ∀ (st : ReceiverState) (b b2 : MessageBuilder) (chunk : Str),
    st.message_builder = some b →
    b.add_body_chunk chunk = .ok b2 →
    (b2.done = false →
      MessageReceiver.receive_body st chunk = .ok ⟨some b2⟩ [.ready]) ∧
    (b2.done = true →
      MessageReceiver.receive_body st chunk =
        .ok ⟨none⟩ [.notify .contentBodyFrame (.tagMsg b2.consumer_tag b2.build)]) := by
  intro st b b2 chunk hst hadd
  constructor
  · intro hd
    simp [MessageReceiver.receive_body, hst, hadd, hd]
  · intro hd
    simp [MessageReceiver.receive_body, hst, hadd, hd]

/-- C5 witness: a builder expecting one body byte receives its final chunk;
the content-body rendezvous is resolved with the built message and the slot is
cleared, with no readiness signal in the emitted trace. -/
theorem C5_receive_body_chunk_witness :
    ((⟨some ⟨.int 1, .bool false, pyStr "e", pyStr "k", none, some ⟨1⟩, []⟩⟩ :
        ReceiverState).message_builder =
      some ⟨.int 1, .bool false, pyStr "e", pyStr "k", none, some ⟨1⟩, []⟩) ∧
    ((⟨.int 1, .bool false, pyStr "e", pyStr "k", none, some ⟨1⟩, []⟩ :
        MessageBuilder).add_body_chunk (pyStr "x") =
      .ok ⟨.int 1, .bool false, pyStr "e", pyStr "k", none, some ⟨1⟩, pyStr "x"⟩) ∧
    ((⟨.int 1, .bool false, pyStr "e", pyStr "k", none, some ⟨1⟩, pyStr "x"⟩ :
        MessageBuilder).done = true) ∧
    (MessageReceiver.receive_body
        ⟨some ⟨.int 1, .bool false, pyStr "e", pyStr "k", none, some ⟨1⟩, []⟩⟩ (pyStr "x") =
      .ok ⟨none⟩ [.notify .contentBodyFrame
        (.tagMsg none ⟨.int 1, .bool false, pyStr "e", pyStr "k", ⟨1⟩, pyStr "x"⟩)]) :=
  ⟨rfl, rfl, rfl,
   (C5_receive_body_chunk
      ⟨some ⟨.int 1, .bool false, pyStr "e", pyStr "k", none, some ⟨1⟩, []⟩⟩
      ⟨.int 1, .bool false, pyStr "e", pyStr "k", none, some ⟨1⟩, []⟩
      ⟨.int 1, .bool false, pyStr "e", pyStr "k", none, some ⟨1⟩, pyStr "x"⟩
      (pyStr "x") rfl rfl).2 rfl⟩

/-- C6: when the peer initiates a channel close, `handle_ChannelClose` sends
exactly the `ChannelCloseOK` acknowledgement, completing the close handshake;
it signals no readiness, so no further frame is requested from the dispatcher
and frame acceptance on the channel terminates. -/
theorem C6_peer_initiated_close :
    ChannelFrameHandler.handle_ChannelClose = [.sendMethod .channelCloseOK] ∧
    Act.ready ∉ ChannelFrameHandler.handle_ChannelClose := by
  refine ⟨rfl, ?_⟩
  decide

/-- C7: `Channel.close` sends the close request and awaits `ChannelCloseOK`,
and — per the source comment — never signals readiness afterwards; the
`ChannelCloseOK` frame handler only resolves the close rendezvous and signals
no readiness either, so after the close-ok exchange the handler never requests
another frame and no further frame is processed on the channel. -/
theorem C7_no_ready_after_close :
    Channel.close_trace =
      [.sendMethod (.channelClose 0 (pyStr "Channel closed by application") 0 0),
       .awaitKey .channelCloseOK] ∧
    Act.ready ∉ Channel.close_trace ∧
    ChannelFrameHandler.handle_ChannelCloseOK = [.notify .channelCloseOK .unit] ∧
    Act.ready ∉ ChannelFrameHandler.handle_ChannelCloseOK := by
  refine ⟨rfl, ?_, rfl, ?_⟩
  · decide
  · decide

/-- C8: `ChannelFactory` opens register the handler with the dispatcher before
the open request is sent; a failed handshake removes that registration again,
propagates the failure and does not advance the id counter; and across any
sequence of open attempts starting from a fresh factory, the ids of the
successful opens are exactly `1, 2, 3, ...` in order — monotonically
increasing from 1 and never reused for the life of the connection. -/
theorem C8_factory_ids_and_rollback :
    (∀ st : FactoryState,
      ChannelFactory.openChannel st true =
        (⟨st.next_channel_id + 1⟩,
         [.addHandler st.next_channel_id, .sendMethod (.channelOpen []), .ready,
          .awaitKey .channelOpenOK, .ready],
         some st.next_channel_id)) ∧
    (∀ st : FactoryState,
      ChannelFactory.openChannel st false =
        (st,
         [.addHandler st.next_channel_id, .sendMethod (.channelOpen []), .ready,
          .awaitKey .channelOpenOK, .removeHandler st.next_channel_id],
         none)) ∧
    (∀ bs : List Bool,
      (runOpens ChannelFactory.initState bs).filterMap (fun x => x) =
        List.range' 1 (bs.count true)) ∧
    (∀ bs : List Bool,
      ((runOpens ChannelFactory.initState bs).filterMap (fun x => x)).Pairwise (· < ·)) := by
  refine ⟨fun st => rfl, fun st => rfl, fun bs => runOpens_ids bs _, fun bs => ?_⟩
  rw [runOpens_ids]
  exact List.pairwise_lt_range' 1 _

/-- C9: a returned-message reconstruction always resolves the content-body
rendezvous with consumer tag `None`: the builder `receive_return` installs is
constructed without a consumer tag, and neither `set_header` nor any body
chunk changes it, so on every completed run the `assert tag is None` in
`receive_return` holds and the resumed trace never raises `AssertionError`. -/
theorem C9_returned_message_tag_is_none :
    ∀ (p : BasicReturnPayload) (hp : ContentHeaderPayload) (st2 : ReceiverState)
      (tr2 : List Act) (cs : List Str) (tag : Option Str) (msg : Message)
      (cb : Option Nat),
    MessageReceiver.receive_header (MessageReceiver.receive_return_start ⟨none⟩ p).1 hp =
      .ok st2 tr2 →
    runChunks st2 cs = some (tag, msg) →
    tag = none ∧
      Act.assertionError ∉ MessageReceiver.receive_return_finish cb tag msg := by
  intro p hp st2 tr2 cs tag msg cb hhdr hrun
  have hb : MessageReceiver.receive_header
      (MessageReceiver.receive_return_start ⟨none⟩ p).1 hp =
      .ok ⟨some ⟨.str [], .str [], p.exchange, p.routing_key, none, some hp, []⟩⟩
        [.notify .contentHeaderFrame .unit, .ready] := rfl
  rw [hb] at hhdr
  injection hhdr with h1 h2
  subst h1
  have htag : tag = none := (runChunks_meta cs _ _ tag msg rfl hrun).1
  subst htag
  refine ⟨rfl, ?_⟩
  cases cb with
  | none =>
    simp [MessageReceiver.receive_return_finish,
      ReturnedMessageCatcher.handle_returned_message]
  | some f =>
    simp [MessageReceiver.receive_return_finish,
      ReturnedMessageCatcher.handle_returned_message]

/-- C9 witness: a concrete returned-message run (header declaring two body
bytes, two one-byte chunks) resolves the content-body rendezvous with tag
`none`, and the resumed `receive_return` does not hit the assertion. -/
theorem C9_returned_message_tag_is_none_witness :
    (MessageReceiver.receive_header
        (MessageReceiver.receive_return_start ⟨none⟩ ⟨pyStr "e", pyStr "k"⟩).1 ⟨2⟩ =
      .ok ⟨some ⟨.str [], .str [], pyStr "e", pyStr "k", none, some ⟨2⟩, []⟩⟩
        [.notify .contentHeaderFrame .unit, .ready]) ∧
    (runChunks ⟨some ⟨.str [], .str [], pyStr "e", pyStr "k", none, some ⟨2⟩, []⟩⟩
        [pyStr "a", pyStr "b"] =
      some (none, ⟨.str [], .str [], pyStr "e", pyStr "k", ⟨2⟩, pyStr "ab"⟩)) ∧
    ((none : Option Str) = none ∧
      Act.assertionError ∉ MessageReceiver.receive_return_finish none none
        ⟨.str [], .str [], pyStr "e", pyStr "k", ⟨2⟩, pyStr "ab"⟩) :=
  ⟨rfl, rfl,
   C9_returned_message_tag_is_none ⟨pyStr "e", pyStr "k"⟩ ⟨2⟩ _ _ [pyStr "a", pyStr "b"]
     none ⟨.str [], .str [], pyStr "e", pyStr "k", ⟨2⟩, pyStr "ab"⟩ none rfl rfl⟩

/-- C10: `receive_header` and `receive_body` dereference the single builder
slot unconditionally. A freshly constructed receiver has an empty slot; a
content-header or content-body frame arriving in that state faults with the
`AttributeError` on `None` (for the header frame, after the rendezvous has
already been notified) instead of being rejected cleanly; with a builder
installed, neither step can hit the `None`-slot fault. -/
theorem C10_content_frames_need_installed_builder :
    (MessageReceiver.initState.message_builder = none) ∧
    (∀ p : ContentHeaderPayload,
      MessageReceiver.receive_header ⟨none⟩ p =
        .fault .noneAttributeError [.notify .contentHeaderFrame .unit]) ∧
    (∀ c : Str,
      MessageReceiver.receive_body ⟨none⟩ c = .fault .noneAttributeError []) ∧
    (∀ (b : MessageBuilder) (p : ContentHeaderPayload),
      hitsNoneFault (MessageReceiver.receive_header ⟨some b⟩ p) = false) ∧
    (∀ (b : MessageBuilder) (c : Str),
      hitsNoneFault (MessageReceiver.receive_body ⟨some b⟩ c) = false) := by
  refine ⟨rfl, fun p => rfl, fun c => rfl, fun b p => ?_, fun b c => ?_⟩
  · cases hsh : b.set_header p with
    | error f => simp [MessageReceiver.receive_header, hsh, hitsNoneFault]
    | ok b2 => simp [MessageReceiver.receive_header, hsh, hitsNoneFault]
  · cases hab : b.add_body_chunk c with
    | error f => simp [MessageReceiver.receive_body, hab, hitsNoneFault]
    | ok b2 =>
      by_cases hd : b2.done
      · simp [MessageReceiver.receive_body, hab, hd, hitsNoneFault]
      · simp [MessageReceiver.receive_body, hab, hd, hitsNoneFault]

end Asynqp
